import Mathlib

/-!
Shallow embedding of the LED controller backend (`src/app.py`), a Flask app
that persists a single JSON state record and validates writes to it.

Modelling conventions:
* Python values that can occur in a JSON payload or a stored record are the
  inductive `PyVal`.  Python floats are modelled as exact dyadic numbers
  `mant * 2 ^ exp` (structure `PyFloat`); every IEEE-754 double is such a
  number, and `int()` on a float is truncation toward zero.
* Lists and dicts appearing as field values carry only their emptiness flag,
  which is all the program ever observes of them (truthiness); their other
  content is never inspected by any code path modelled here.
* The storage file is `Storage := Option Content`: `none` when the file does
  not exist, `Content.obj` when its text parses as a JSON object,
  `Content.nonObjJson` when it parses as some other JSON value (on which
  `dict.setdefault` raises), and `Content.unparseable` when `json.load`
  raises.  `json.dumps` of a record followed by `json.load` is the identity
  at this level of abstraction.
* Wall-clock time is passed in explicitly: each operation takes the string
  `now_iso()` would return.
* String handling is ASCII-faithful: `int(str)` strips the same whitespace
  characters as `Char.isWhitespace` and accepts ASCII digits, which matches
  Python on every input considered here.
-/

/-- A Python float, written as an exact dyadic rational mant * 2 ^ exp.
Every IEEE-754 double has this form. -/
structure PyFloat where
  mant : Int
  exp : Int
deriving DecidableEq, Repr

/-- Truncation toward zero, the behaviour of Python int() on a float. -/
def PyFloat.trunc (f : PyFloat) : Int :=
  if 0 ≤ f.exp then f.mant * (2 ^ f.exp.toNat) else f.mant.tdiv (2 ^ (-f.exp).toNat)

/-- A Python value as it can appear in a decoded JSON body or stored record.
Lists and dicts record only whether they are empty. -/
inductive PyVal where
  | pyNone
  | pyBool (b : Bool)
  | pyInt (n : Int)
  | pyFloat (f : PyFloat)
  | pyStr (s : String)
  | pyList (isEmpty : Bool)
  | pyDict (isEmpty : Bool)
deriving DecidableEq, Repr

/-- Python truthiness of a `PyVal` (None, False, 0, 0.0, "", [], and an
empty dict are falsy). -/
def pyTruthy : PyVal → Bool
  | .pyNone => false
  | .pyBool b => b
  | .pyInt n => n != 0
  | .pyFloat f => f.mant != 0
  | .pyStr s => s != ""
  | .pyList isEmpty => !isEmpty
  | .pyDict isEmpty => !isEmpty

/-- ASCII decimal digit test, identical to Char.isDigit. -/
def isAsciiDigit (c : Char) : Bool := c.isDigit

/-- Tail of a Python integer literal after its first digit: digits with
single underscores allowed strictly between digits. -/
def pyDigitTail : List Char → Bool
  | [] => true
  | '_' :: c :: rest => isAsciiDigit c && pyDigitTail rest
  | ['_'] => false
  | c :: rest => isAsciiDigit c && pyDigitTail rest

/-- A nonempty run of digits, with single underscores allowed between
digits, as accepted by Python int() after the optional sign. -/
def pyDigitBody : List Char → Bool
  | [] => false
  | c :: rest => isAsciiDigit c && pyDigitTail rest

/-- Numeric value of the digits in a list, ignoring underscores. -/
def digitsVal (l : List Char) : Nat :=
  l.foldl (fun a c => if isAsciiDigit c then 10 * a + (c.toNat - 48) else a) 0

/-- Strip leading and trailing whitespace from a character list, as Python
int() does to a string argument before parsing. -/
def stripWs (l : List Char) : List Char :=
  ((l.dropWhile Char.isWhitespace).reverse.dropWhile Char.isWhitespace).reverse

/-- Python int() applied to a string: optional sign, then digits with
optional single underscores, surrounded by optional whitespace.  `none`
means a ValueError is raised. -/
def pyIntOfString (s : String) : Option Int :=
  match stripWs s.data with
  | '+' :: rest => if pyDigitBody rest then some (digitsVal rest) else Option.none
  | '-' :: rest => if pyDigitBody rest then some (-(digitsVal rest : Int)) else Option.none
  | l => if pyDigitBody l then some (digitsVal l) else Option.none

/-- Python int() applied to an arbitrary value: ints pass through, bools
become 0/1, floats truncate toward zero, strings parse as integer
literals; everything else raises (`none`). -/
def pyIntCoerce : PyVal → Option Int
  | .pyInt n => some n
  | .pyBool b => some (if b then 1 else 0)
  | .pyFloat f => some f.trunc
  | .pyStr s => pyIntOfString s
  | _ => Option.none

/-- Hex digit as accepted by the character class 0-9a-fA-F. -/
def isHexDigitChar (c : Char) : Bool :=
  (('0' ≤ c && c ≤ '9') || ('a' ≤ c && c ≤ 'f')) || ('A' ≤ c && c ≤ 'F')

/-- A hash sign followed by exactly six hex digits and nothing else. -/
def hexColorCore : List Char → Bool
  | c :: rest => c == '#' && (rest.length == 6 && rest.all isHexDigitChar)
  | [] => false

/-- Python re.match of HEX_COLOR_RE, the compiled regex of line 28 of
app.py.  re.match anchors at the start; without re.MULTILINE the final
dollar matches at the end of the string or just before one newline at the
very end, so a single trailing newline is also accepted. -/
def hexColorMatch (s : String) : Bool :=
  hexColorCore s.data ||
    (match s.data.getLast? with
     | some c => c == '\n' && hexColorCore s.data.dropLast
     | Option.none => false)

/-- LED_MIN of app.py line 29. -/
def LED_MIN : Int := 0

/-- LED_MAX of app.py line 29. -/
def LED_MAX : Int := 8

/-- The f-string message for an out-of-range count (app.py line 92). -/
def countRangeMsg : String :=
  "count inválido — debe estar entre " ++ toString LED_MIN ++ " y " ++ toString LED_MAX

/-- validate_state of app.py lines 84-93: the color must be a str matching
HEX_COLOR_RE, the count must survive int() and land in LED_MIN..LED_MAX.
Returns the (ok, message) pair of the source. -/
def validate_state (color : PyVal) (count : PyVal) : Bool × String :=
  match color with
  | .pyStr s =>
    if hexColorMatch s then
      match pyIntCoerce count with
      | Option.none => (false, "count debe ser un número entero")
      | some n =>
        if LED_MIN ≤ n ∧ n ≤ LED_MAX then (true, "") else (false, countRangeMsg)
    else (false, "color inválido — usa formato #RRGGBB")
  | _ => (false, "color inválido — usa formato #RRGGBB")

/-- A parsed JSON object in the storage file, restricted to the four schema
keys the program reads or writes.  `none` marks an absent key. -/
structure StoredRec where
  color : Option PyVal
  count : Option PyVal
  rev : Option PyVal
  updated_at : Option PyVal
deriving DecidableEq, Repr

/-- The text of the storage file, as seen through json.load. -/
inductive Content where
  | obj (r : StoredRec)
  | nonObjJson (v : PyVal)
  | unparseable
deriving DecidableEq, Repr

/-- The storage file itself; `none` when STATE_FILE does not exist. -/
abbrev Storage := Option Content

/-- A fully populated state dict, as returned by load_state after its
setdefault calls: all four keys present. -/
structure StateDict where
  color : PyVal
  count : PyVal
  rev : PyVal
  updated_at : PyVal
deriving DecidableEq, Repr

/-- default_state of app.py lines 60-61. -/
def default_state (now : String) : StateDict :=
  ⟨.pyStr "#ff0000", .pyInt 0, .pyInt 1, .pyStr now⟩

/-- json.dumps of a complete state dict, as a storage content. -/
def dumpRecord (r : StateDict) : Content :=
  .obj ⟨some r.color, some r.count, some r.rev, some r.updated_at⟩

/-- The four setdefault calls of app.py lines 73-76: backfill each absent
key with its default, updated_at getting the current time. -/
def backfill (pr : StoredRec) (now : String) : StateDict :=
  ⟨pr.color.getD (.pyStr "#ff0000"), pr.count.getD (.pyInt 0),
   pr.rev.getD (.pyInt 1), pr.updated_at.getD (.pyStr now)⟩

/-- load_state of app.py lines 64-81: a missing file yields the default
record, persisted; a parse failure or a non-object JSON document (on which
setdefault raises, caught by the except clause) likewise; an object is
backfilled in memory and returned with the file left as it was. -/
def load_state (st : Storage) (now : String) : StateDict × Storage :=
  match st with
  | Option.none =>
    (default_state now, some (dumpRecord (default_state now)))
  | some (Content.obj pr) => (backfill pr now, st)
  | some (Content.nonObjJson _) =>
    (default_state now, some (dumpRecord (default_state now)))
  | some Content.unparseable =>
    (default_state now, some (dumpRecord (default_state now)))

/-- The JSON body of a POST request as decoded by request.get_json: either
an object (whose color and count keys we track) or some other JSON value. -/
inductive BodyVal where
  | obj (color : Option PyVal) (count : Option PyVal)
  | nonobj (v : PyVal)
deriving DecidableEq, Repr

/-- Lines 114-116 of app.py: request.get_json(silent=True) or followed by
the two payload.get calls.  `none` for the request body means the body was
missing or not valid JSON (get_json returns None).  The result is the
(color, count) pair handed to validation, or `none` when payload.get
raises AttributeError because a truthy non-dict value survived the
or-with-empty-dict. -/
def payloadOf : Option BodyVal → Option (Option PyVal × Option PyVal)
  | Option.none => some (Option.none, Option.none)
  | some (BodyVal.obj c k) => some (c, k)
  | some (BodyVal.nonobj v) =>
    if pyTruthy v then Option.none else some (Option.none, Option.none)

/-- Outcome of the POST /api/state handler: the 200 response dict, the 400
validation error body, or an unhandled exception (Flask answers 500). -/
inductive PostResult where
  | ok200 (rec : StateDict)
  | err400 (msg : String)
  | crash500
deriving DecidableEq, Repr

/-- Lines 118-129 of app.py, after payload extraction: validate, then load,
overwrite color and count, bump rev, stamp updated_at, and persist via
atomic_write.  int() on the loaded rev raising (a stored rev that is not
coercible) is an unhandled exception; the initializing write that load may
have performed is kept in that case, exactly as in the source. -/
def set_state_core (c k : Option PyVal) (st : Storage) (now : String) :
    PostResult × Storage :=
  let color := c.getD .pyNone
  let count := k.getD .pyNone
  let v := validate_state color count
  if v.1 = false then (.err400 v.2, st)
  else
    let ld := load_state st now
    match pyIntCoerce count, pyIntCoerce ld.1.rev with
    | some n, some r =>
      let newRec : StateDict := ⟨color, .pyInt n, .pyInt (r + 1), .pyStr now⟩
      (.ok200 newRec, some (dumpRecord newRec))
    | _, _ => (.crash500, ld.2)

/-- set_state of app.py lines 108-129: the whole POST handler. -/
def set_state (body : Option BodyVal) (st : Storage) (now : String) :
    PostResult × Storage :=
  match payloadOf body with
  | Option.none => (.crash500, st)
  | some ck => set_state_core ck.1 ck.2 st now

/-- An HTTP request against the service, with the wall-clock time at which
it is handled. -/
inductive Op where
  | get (now : String)
  | post (body : Option BodyVal) (now : String)

/-- Effect of one request on the storage file. -/
def step : Op → Storage → Storage
  | .get now, st => (load_state st now).2
  | .post b now, st => (set_state b st now).2

/-- Effect of a sequence of requests on the storage file. -/
def runOps (ops : List Op) (st : Storage) : Storage :=
  ops.foldl (fun s o => step o s) st

/-- The rev field stored in the file, when the file holds an object whose
rev is an integer. -/
def storedRev : Storage → Option Int
  | some (Content.obj pr) =>
    match pr.rev with
    | some (PyVal.pyInt n) => some n
    | _ => Option.none
  | _ => Option.none

/-- Stored rev read as an integer, zero when absent or malformed. -/
def srev (st : Storage) : Int := (storedRev st).getD 0

/-- States the service itself can produce: no file yet, or a file holding a
complete record whose rev is an integer at least 1. -/
def GoodStorage (st : Storage) : Prop :=
  st = Option.none ∨
    ∃ pr m, st = some (Content.obj pr) ∧ pr.rev = some (PyVal.pyInt m) ∧ 1 ≤ m

/-! ### The atomic_write protocol, with an explicit fault model -/

/-- The two files atomic_write touches: the target path and the temporary
file next to it, each `none` when absent and otherwise holding its text. -/
structure FS where
  target : Option String
  tmp : Option String
deriving DecidableEq, Repr

/-- Which step of atomic_write fails, if any: the write into the temporary
file, or the atomic os.replace onto the target. -/
inductive Fault where
  | noFault
  | writeFail
  | renameFail
deriving DecidableEq, Repr

/-- atomic_write of app.py lines 45-57 under the fault model: mkstemp
creates the temporary file, the text is written to it, os.replace moves it
onto the target; on either failure the exception propagates and the
finally block removes the leftover temporary file.  The Except value is
the outcome seen by the caller. -/
def atomic_write (fault : Fault) (text : String) (fs : FS) :
    Except String Unit × FS :=
  let afterTmp : FS := ⟨fs.target, some ""⟩
  match fault with
  | .writeFail =>
    (.error "write failed", ⟨afterTmp.target, Option.none⟩)
  | .renameFail =>
    let written : FS := ⟨afterTmp.target, some text⟩
    (.error "rename failed", ⟨written.target, Option.none⟩)
  | .noFault =>
    let written : FS := ⟨afterTmp.target, some text⟩
    (.ok (), ⟨written.tmp, Option.none⟩)

/-! ### Claim theorems -/

/-- C4: Load never raises: for missing storage and for any storage content
that fails to parse as a well-formed record (unparseable text or
non-object JSON), load_state regenerates, persists, and returns the
default record with color #ff0000, count 0, rev 1 and a fresh
timestamp. -/
theorem load_state_bad_storage_defaults (st : Storage) (now : String)
    (hbad : st = Option.none ∨ (∃ v, st = some (Content.nonObjJson v)) ∨
      st = some Content.unparseable) :
    load_state st now =
      (⟨.pyStr "#ff0000", .pyInt 0, .pyInt 1, .pyStr now⟩,
       some (Content.obj ⟨some (.pyStr "#ff0000"), some (.pyInt 0),
         some (.pyInt 1), some (.pyStr now)⟩)) := by
  rcases hbad with h | ⟨v, h⟩ | h <;> subst h <;> rfl

/-- Witness for C4 at the concrete input of a missing storage file. -/
theorem load_state_bad_storage_defaults_witness :
    load_state Option.none "t0" =
      (⟨.pyStr "#ff0000", .pyInt 0, .pyInt 1, .pyStr "t0"⟩,
       some (Content.obj ⟨some (.pyStr "#ff0000"), some (.pyInt 0),
         some (.pyInt 1), some (.pyStr "t0")⟩)) :=
  load_state_bad_storage_defaults Option.none "t0" (Or.inl rfl)

/-- C5: round-trip: saving a schema-complete record and loading again
returns a record equal to the saved one, and leaves storage holding
exactly the saved record, so default-backfill is a no-op on a complete
record. -/
theorem save_then_load_roundtrip (r : StateDict) (now : String) :
    load_state (some (dumpRecord r)) now = (r, some (dumpRecord r)) := rfl

/-- C9: a Load on storage that exists and parses as an object returns the
record with absent fields backfilled (updated_at becoming the current
time only when absent, rev staying at the stored value or 1 when absent,
with no bump) and does not re-persist: the storage file is returned
unchanged. -/
theorem load_state_backfill_no_persist (pr : StoredRec) (now : String) :
    load_state (some (Content.obj pr)) now =
      (⟨pr.color.getD (.pyStr "#ff0000"), pr.count.getD (.pyInt 0),
        pr.rev.getD (.pyInt 1), pr.updated_at.getD (.pyStr now)⟩,
       some (Content.obj pr)) := rfl

/-- C6: when the write into the temporary file or the atomic rename fails,
atomic_write propagates the failure to the caller, leaves the target file
untouched, and removes the temporary file. -/
theorem atomic_write_failure_cleanup (fault : Fault) (text : String) (fs : FS)
    (h : fault ≠ Fault.noFault) :
    (∃ msg, (atomic_write fault text fs).1 = .error msg)
    ∧ ((atomic_write fault text fs).2).target = fs.target
    ∧ ((atomic_write fault text fs).2).tmp = Option.none := by
  cases fault with
  | noFault => exact absurd rfl h
  | writeFail => exact ⟨⟨"write failed", rfl⟩, rfl, rfl⟩
  | renameFail => exact ⟨⟨"rename failed", rfl⟩, rfl, rfl⟩

/-- Witness for C6: a failing rename over an existing target. -/
theorem atomic_write_failure_cleanup_witness :
    (∃ msg, (atomic_write Fault.renameFail "new" ⟨some "old", Option.none⟩).1
      = .error msg)
    ∧ ((atomic_write Fault.renameFail "new" ⟨some "old", Option.none⟩).2).target
      = some "old"
    ∧ ((atomic_write Fault.renameFail "new" ⟨some "old", Option.none⟩).2).tmp
      = Option.none :=
  atomic_write_failure_cleanup Fault.renameFail "new" ⟨some "old", Option.none⟩
    (by decide)

/-- C10 counterexample: a POST with color "blue" is answered with the
Spanish reason string of app.py line 86, which is not the English string
the claim states. -/
theorem post_invalid_color_message_counterexample :
    (set_state (some (BodyVal.obj (some (.pyStr "blue")) (some (.pyInt 3))))
        Option.none "t0").1
      = PostResult.err400 "color inválido — usa formato #RRGGBB"
    ∧ "color inválido — usa formato #RRGGBB" ≠ "invalid color — use #RRGGBB format" :=
  ⟨rfl, by decide⟩

/-- C10 amended: a POST whose color is the non-matching string "blue"
returns HTTP 400 with body error exactly "color inválido — usa formato
#RRGGBB", whatever the count and the stored state, and storage is
unchanged. -/
theorem post_invalid_color_spanish_message (k : Option PyVal) (st : Storage)
    (now : String) :
    set_state (some (BodyVal.obj (some (.pyStr "blue")) k)) st now
      = (.err400 "color inválido — usa formato #RRGGBB", st) := rfl

/-- C7 counterexample: the float 3.5 (mantissa 7, exponent -1) has a
non-integral value (its odd mantissa times 3 doubled is not 7), yet
validation accepts it: Python int() truncates floats instead of rejecting
non-integral ones. -/
theorem float_count_counterexample :
    validate_state (.pyStr "#000000") (.pyFloat ⟨7, -1⟩) = (true, "")
    ∧ PyFloat.trunc ⟨7, -1⟩ = 3
    ∧ (7 : Int) % 2 = 1 := by decide

/-- C7 amended: with a valid color, validation accepts a count exactly when
int() coercion succeeds — ints pass through, bools become 0 or 1, floats
are truncated toward zero, digit strings parse — with a coerced value in
0..8; anything int() raises on fails validation. -/
theorem validate_count_acceptance (k : PyVal) (f : PyFloat) :
    ((validate_state (.pyStr "#00ff00") k).1 = true ↔
      ∃ n, pyIntCoerce k = some n ∧ 0 ≤ n ∧ n ≤ 8)
    ∧ pyIntCoerce (.pyFloat f) = some f.trunc := by
  refine ⟨?_, rfl⟩
  have hcol : hexColorMatch "#00ff00" = true := by decide
  constructor
  · intro h
    simp only [validate_state, hcol, if_true] at h
    rcases hk : pyIntCoerce k with _ | n
    · rw [hk] at h
      exact Bool.noConfusion h
    · rw [hk] at h
      replace h : (if LED_MIN ≤ n ∧ n ≤ LED_MAX then ((true, "") : Bool × String)
          else (false, countRangeMsg)).1 = true := h
      by_cases hr : LED_MIN ≤ n ∧ n ≤ LED_MAX
      · exact ⟨n, rfl, hr.1, hr.2⟩
      · rw [if_neg hr] at h
        exact Bool.noConfusion h
  · rintro ⟨n, hk, h0, h8⟩
    simp only [validate_state, hcol, if_true, hk]
    show (if LED_MIN ≤ n ∧ n ≤ LED_MAX then ((true, "") : Bool × String)
        else (false, countRangeMsg)).1 = true
    rw [if_pos ⟨h0, h8⟩]

/-- C2 counterexample: a POST whose body is the JSON number 5 — a truthy
non-object body — is not treated as empty input and does not produce an
HTTP 400: payload.get raises AttributeError, an unhandled exception
(HTTP 500).  Storage is left unchanged. -/
theorem post_nonobj_body_counterexample :
    set_state (some (BodyVal.nonobj (.pyInt 5)))
        (some (dumpRecord (default_state "t0"))) "t1"
      = (PostResult.crash500, some (dumpRecord (default_state "t0"))) := rfl

/-- C2 amended: a write whose color or count fails validation returns the
validation reason with HTTP 400 and persists nothing, so a subsequent Load
sees the prior storage; a missing, non-JSON, or falsy JSON body is treated
as empty input, but a truthy non-object JSON body instead raises an
unhandled exception (HTTP 500), also persisting nothing. -/
theorem post_invalid_rejected_storage_unchanged (c k : Option PyVal)
    (st : Storage) (now now2 : String) (v : PyVal)
    (hfail : (validate_state (c.getD .pyNone) (k.getD .pyNone)).1 = false) :
    set_state_core c k st now
      = (.err400 (validate_state (c.getD .pyNone) (k.getD .pyNone)).2, st)
    ∧ load_state (set_state_core c k st now).2 now2 = load_state st now2
    ∧ set_state Option.none st now = set_state_core Option.none Option.none st now
    ∧ (pyTruthy v = false →
        set_state (some (BodyVal.nonobj v)) st now
          = set_state_core Option.none Option.none st now)
    ∧ (pyTruthy v = true →
        set_state (some (BodyVal.nonobj v)) st now = (.crash500, st)) := by
  have hcore : set_state_core c k st now
      = (.err400 (validate_state (c.getD .pyNone) (k.getD .pyNone)).2, st) := by
    unfold set_state_core
    rw [if_pos hfail]
  refine ⟨hcore, by rw [hcore], rfl, ?_, ?_⟩
  · intro hv
    simp [set_state, payloadOf, hv]
  · intro hv
    simp [set_state, payloadOf, hv]

/-- Witness for C2 amended: color "blue" with count 3 on a default stored
record, and the falsy body None. -/
theorem post_invalid_rejected_storage_unchanged_witness :
    set_state_core (some (.pyStr "blue")) (some (.pyInt 3))
        (some (dumpRecord (default_state "t0"))) "t1"
      = (.err400 (validate_state ((some (PyVal.pyStr "blue")).getD .pyNone)
          ((some (PyVal.pyInt 3)).getD .pyNone)).2,
         some (dumpRecord (default_state "t0")))
    ∧ load_state (set_state_core (some (.pyStr "blue")) (some (.pyInt 3))
        (some (dumpRecord (default_state "t0"))) "t1").2 "t2"
      = load_state (some (dumpRecord (default_state "t0"))) "t2"
    ∧ set_state Option.none (some (dumpRecord (default_state "t0"))) "t1"
      = set_state_core Option.none Option.none
          (some (dumpRecord (default_state "t0"))) "t1"
    ∧ (pyTruthy .pyNone = false →
        set_state (some (BodyVal.nonobj .pyNone))
            (some (dumpRecord (default_state "t0"))) "t1"
          = set_state_core Option.none Option.none
              (some (dumpRecord (default_state "t0"))) "t1")
    ∧ (pyTruthy .pyNone = true →
        set_state (some (BodyVal.nonobj .pyNone))
            (some (dumpRecord (default_state "t0"))) "t1"
          = (.crash500, some (dumpRecord (default_state "t0")))) :=
  post_invalid_rejected_storage_unchanged (some (.pyStr "blue"))
    (some (.pyInt 3)) (some (dumpRecord (default_state "t0"))) "t1" "t2"
    .pyNone (by decide)

/-- C1: a POST whose color string matches the pattern and whose count
coerces to an integer in 0..8 succeeds with HTTP 200, and the returned and
persisted record carries exactly that color and that coerced count, under
the schema invariant that the loaded rev is int()-coercible. -/
theorem post_valid_inputs_succeed (s : String) (k : PyVal) (n r : Int)
    (st : Storage) (now : String)
    (hc : hexColorMatch s = true) (hk : pyIntCoerce k = some n)
    (h0 : 0 ≤ n) (h8 : n ≤ 8)
    (hr : pyIntCoerce (load_state st now).1.rev = some r) :
    set_state (some (BodyVal.obj (some (.pyStr s)) (some k))) st now =
      (.ok200 ⟨.pyStr s, .pyInt n, .pyInt (r + 1), .pyStr now⟩,
       some (dumpRecord ⟨.pyStr s, .pyInt n, .pyInt (r + 1), .pyStr now⟩)) := by
  have hval : validate_state (.pyStr s) k = (true, "") := by
    simp only [validate_state, hc, if_true, hk]
    rw [if_pos ⟨h0, h8⟩]
  simp [set_state, payloadOf, set_state_core, hval, hk, hr]

/-- Witness for C1: color #00ff00 with the string count "3" on a missing
storage file. -/
theorem post_valid_inputs_succeed_witness :
    set_state (some (BodyVal.obj (some (.pyStr "#00ff00")) (some (.pyStr "3"))))
        Option.none "t1" =
      (.ok200 ⟨.pyStr "#00ff00", .pyInt 3, .pyInt (1 + 1), .pyStr "t1"⟩,
       some (dumpRecord ⟨.pyStr "#00ff00", .pyInt 3, .pyInt (1 + 1), .pyStr "t1"⟩)) :=
  post_valid_inputs_succeed "#00ff00" (.pyStr "3") 3 1 Option.none "t1"
    (by decide) (by decide) (by decide) (by decide) (by decide)

/-- Loading a good storage state yields a record whose rev coerces to an
integer at least 1 and at least the stored rev, and leaves storage good
with the stored rev not decreased. -/
theorem load_rev_good (st : Storage) (now : String) (h : GoodStorage st) :
    ∃ m : Int, 1 ≤ m ∧ pyIntCoerce (load_state st now).1.rev = some m
      ∧ srev st ≤ m ∧ GoodStorage (load_state st now).2
      ∧ srev st ≤ srev (load_state st now).2 := by
  rcases h with rfl | ⟨pr, m, rfl, hrev, hm⟩
  · refine ⟨1, le_refl 1, rfl, by simp [srev, storedRev], ?_, ?_⟩
    · exact Or.inr ⟨_, 1, rfl, rfl, le_refl 1⟩
    · simp [srev, storedRev, load_state, dumpRecord, default_state]
  · refine ⟨m, hm, ?_, ?_, ?_, ?_⟩
    · simp [load_state, backfill, hrev, pyIntCoerce]
    · simp [srev, storedRev, hrev]
    · exact Or.inr ⟨pr, m, rfl, hrev, hm⟩
    · simp [load_state]

/-- The core POST path keeps storage good and never lowers the stored
rev. -/
theorem set_state_core_preserves (c k : Option PyVal) (st : Storage)
    (now : String) (h : GoodStorage st) :
    GoodStorage (set_state_core c k st now).2
    ∧ srev st ≤ srev (set_state_core c k st now).2 := by
  obtain ⟨m, hm1, hco, hle, hg2, hle2⟩ := load_rev_good st now h
  by_cases hv : (validate_state (c.getD .pyNone) (k.getD .pyNone)).1 = false
  · have heq : set_state_core c k st now
        = (.err400 (validate_state (c.getD .pyNone) (k.getD .pyNone)).2, st) := by
      simp only [set_state_core]
      rw [if_pos hv]
    rw [heq]
    exact ⟨h, le_refl _⟩
  · rcases hk2 : pyIntCoerce (k.getD .pyNone) with _ | n
    · have heq : set_state_core c k st now = (.crash500, (load_state st now).2) := by
        simp only [set_state_core]
        rw [if_neg hv, hk2, hco]
      rw [heq]
      exact ⟨hg2, hle2⟩
    · have heq : set_state_core c k st now
          = (.ok200 ⟨c.getD .pyNone, .pyInt n, .pyInt (m + 1), .pyStr now⟩,
             some (dumpRecord ⟨c.getD .pyNone, .pyInt n, .pyInt (m + 1), .pyStr now⟩)) := by
        simp only [set_state_core]
        rw [if_neg hv, hk2, hco]
      rw [heq]
      constructor
      · exact Or.inr ⟨_, m + 1, rfl, rfl, by omega⟩
      · have : srev (some (dumpRecord
            ⟨c.getD .pyNone, .pyInt n, .pyInt (m + 1), .pyStr now⟩)) = m + 1 := by
          simp [srev, storedRev, dumpRecord]
        rw [this]
        omega

/-- One handled request keeps storage good and never lowers the stored
rev. -/
theorem step_preserves (op : Op) (st : Storage) (h : GoodStorage st) :
    GoodStorage (step op st) ∧ srev st ≤ srev (step op st) := by
  cases op with
  | get now =>
    obtain ⟨m, hm1, hco, hle, hg2, hle2⟩ := load_rev_good st now h
    exact ⟨hg2, hle2⟩
  | post b now =>
    rcases hp : payloadOf b with _ | ⟨c, k⟩
    · have heq : step (Op.post b now) st = st := by
        simp [step, set_state, hp]
      rw [heq]
      exact ⟨h, le_refl _⟩
    · have heq : step (Op.post b now) st = (set_state_core c k st now).2 := by
        simp [step, set_state, hp]
      rw [heq]
      exact set_state_core_preserves c k st now h

/-- Any request sequence keeps storage good and never lowers the stored
rev. -/
theorem runOps_preserves (ops : List Op) (st : Storage) (h : GoodStorage st) :
    GoodStorage (runOps ops st) ∧ srev st ≤ srev (runOps ops st) := by
  induction ops generalizing st with
  | nil => exact ⟨h, le_refl _⟩
  | cons op ops ih =>
    obtain ⟨h1, h2⟩ := step_preserves op st h
    obtain ⟨h3, h4⟩ := ih (step op st) h1
    refine ⟨h3, le_trans h2 ?_⟩
    exact h4

/-- C3: the first Load on empty storage yields rev 1; a successful write
returns and persists a rev exactly one above the rev the loaded record
carried; and over any request history starting from empty storage the
stored rev never decreases. -/
theorem rev_counter_properties (now : String) (b : Option BodyVal)
    (st : Storage) (rec : StateDict) (st2 : Storage) (ops more : List Op)
    (hpost : set_state b st now = (.ok200 rec, st2)) :
    (load_state Option.none now).1.rev = .pyInt 1
    ∧ (∃ r, pyIntCoerce (load_state st now).1.rev = some r
        ∧ rec.rev = .pyInt (r + 1) ∧ storedRev st2 = some (r + 1))
    ∧ srev (runOps ops Option.none) ≤ srev (runOps (ops ++ more) Option.none) := by
  refine ⟨rfl, ?_, ?_⟩
  · rcases hp : payloadOf b with _ | ⟨c, k⟩
    · rw [set_state, hp] at hpost
      exact absurd (congrArg Prod.fst hpost) (by simp)
    · rw [set_state, hp] at hpost
      simp only [set_state_core] at hpost
      by_cases hv : (validate_state (c.getD .pyNone) (k.getD .pyNone)).1 = false
      · rw [if_pos hv] at hpost
        exact absurd (congrArg Prod.fst hpost) (by simp)
      · rw [if_neg hv] at hpost
        rcases hk2 : pyIntCoerce (k.getD .pyNone) with _ | n <;>
          rcases hr2 : pyIntCoerce (load_state st now).1.rev with _ | r <;>
          rw [hk2, hr2] at hpost
        · exact absurd (congrArg Prod.fst hpost) (by simp)
        · exact absurd (congrArg Prod.fst hpost) (by simp)
        · exact absurd (congrArg Prod.fst hpost) (by simp)
        · have hrec := congrArg Prod.fst hpost
          have hst2 := congrArg Prod.snd hpost
          simp only at hrec hst2
          refine ⟨r, rfl, ?_, ?_⟩
          · rw [← (PostResult.ok200.inj hrec)]
          · rw [← hst2]
            simp [storedRev, dumpRecord]
  · have h1 := runOps_preserves ops Option.none (Or.inl rfl)
    have h2 := runOps_preserves more (runOps ops Option.none) h1.1
    calc srev (runOps ops Option.none)
        ≤ srev (runOps more (runOps ops Option.none)) := h2.2
      _ = srev (runOps (ops ++ more) Option.none) := by
          simp [runOps, List.foldl_append]

/-- Witness for C3: a valid write on empty storage bumps rev from 1 to
2. -/
theorem rev_counter_properties_witness :
    (load_state Option.none "t0").1.rev = .pyInt 1
    ∧ (∃ r, pyIntCoerce (load_state Option.none "t0").1.rev = some r
        ∧ (StateDict.mk (.pyStr "#00ff00") (.pyInt 3) (.pyInt 2) (.pyStr "t0")).rev
            = .pyInt (r + 1)
        ∧ storedRev (some (dumpRecord
            ⟨.pyStr "#00ff00", .pyInt 3, .pyInt 2, .pyStr "t0"⟩)) = some (r + 1))
    ∧ srev (runOps [] Option.none) ≤ srev (runOps ([] ++ []) Option.none) :=
  rev_counter_properties "t0"
    (some (BodyVal.obj (some (.pyStr "#00ff00")) (some (.pyInt 3))))
    Option.none ⟨.pyStr "#00ff00", .pyInt 3, .pyInt 2, .pyStr "t0"⟩
    (some (dumpRecord ⟨.pyStr "#00ff00", .pyInt 3, .pyInt 2, .pyStr "t0"⟩))
    [] [] (by decide)

/-- Follows the spec words, for comparison with the implemented regex
check: the whole color string is a hash sign followed by exactly six hex
digits and nothing else. -/
def specColorExact (s : String) : Bool :=
  s.data.length == 7 && s.data.head? == some '#' && (s.data.drop 1).all isHexDigitChar

/-- The cons-pattern core check agrees with the length-and-head spec
formulation. -/
theorem hexColorCore_iff (l : List Char) :
    hexColorCore l = true ↔
      (l.length == 7 && l.head? == some '#' && (l.drop 1).all isHexDigitChar) = true := by
  cases l with
  | nil => simp [hexColorCore]
  | cons c rest =>
    simp only [hexColorCore, List.length_cons, List.head?_cons, List.drop_succ_cons,
      List.drop_zero, Bool.and_eq_true, beq_iff_eq, Option.some.injEq]
    constructor
    · rintro ⟨h1, h2, h3⟩
      exact ⟨⟨by omega, h1⟩, h3⟩
    · rintro ⟨⟨h1, h2⟩, h3⟩
      exact ⟨h2, by omega, h3⟩

/-- C8 counterexample: the color string of a hash sign, six hex digits and
one trailing newline is accepted by the implemented check and by
validation, though the claim says every string with extra characters
fails. -/
theorem color_trailing_newline_counterexample :
    hexColorMatch "#ff0000\n" = true
    ∧ validate_state (.pyStr "#ff0000\n") (.pyInt 0) = (true, "") :=
  ⟨by decide, by decide⟩

/-- C8 amended: the implemented color check accepts exactly the strings
that are a hash sign plus six hex digits, possibly followed by one single
trailing newline — the extra acceptance coming from Python dollar-anchor
semantics; everything else, extra characters included, is rejected. -/
theorem hexColorMatch_iff_exact_or_newline (s : String) :
    hexColorMatch s = true ↔
      (specColorExact s = true ∨
        ∃ t : String, s = t.push '\n' ∧ specColorExact t = true) := by
  constructor
  · intro h
    simp only [hexColorMatch, Bool.or_eq_true] at h
    rcases h with h | h
    · exact Or.inl ((hexColorCore_iff s.data).mp h)
    · rcases hl : s.data.getLast? with _ | c
      · rw [hl] at h
        exact Bool.noConfusion h
      · rw [hl] at h
        replace h : (c == '\n' && hexColorCore s.data.dropLast) = true := h
        rw [Bool.and_eq_true, beq_iff_eq] at h
        obtain ⟨rfl, hcore⟩ := h
        right
        refine ⟨⟨s.data.dropLast⟩, ?_, (hexColorCore_iff _).mp hcore⟩
        have hsplit := List.dropLast_append_getLast? '\n' hl
        cases s with
        | mk l => exact congrArg String.mk hsplit.symm
  · intro h
    simp only [hexColorMatch, Bool.or_eq_true]
    rcases h with h | ⟨t, rfl, ht⟩
    · exact Or.inl ((hexColorCore_iff s.data).mpr h)
    · right
      have hdata : (t.push '\n').data = t.data ++ ['\n'] := rfl
      rw [hdata, List.getLast?_concat]
      show ('\n' == '\n' && hexColorCore ((t.data ++ ['\n']).dropLast)) = true
      rw [List.dropLast_concat]
      simp only [beq_self_eq_true, Bool.true_and]
      exact (hexColorCore_iff _).mpr ht
